import Mathlib

/-!
Verification of the `brightness-ctl` Controller core (src/main.rs).

Modelling choices (shallow embedding):
* Rust `f64` is modelled by `F`: either an exact rational number or one of
  the IEEE special values NaN, +∞, -∞.  Rational arithmetic is exact, so
  floating-point rounding error is not modelled; signed zeros and -NaN are
  collapsed.  The saturating `as u64` cast, `f64::round`
  (round-half-away-from-zero) and IEEE special-value propagation for the
  operations the program uses are modelled faithfully.
* Rust `u64` is modelled by `Nat`; parsing enforces the `< 2^64` bound that
  `str::parse::<u64>` enforces, so values produced by parsing fit in `u64`.
* An open file handle is a `File`: its byte contents (as a `List Char`,
  so the UTF-8 decoding step of `read_u64` always succeeds; all inputs of
  interest are ASCII), a cursor position `pos`, and a `failWrites` flag
  modelling a device whose writes fail with an I/O error.
* A backlight device directory is a `Device`: the contents of its
  `brightness` and `max_brightness` entries (`none` = the file cannot be
  opened) plus the `failWrites` flag for the brightness handle.
* `trim` is modelled on the ASCII whitespace subset of Unicode
  `char::is_whitespace`; all inputs of interest are ASCII.
* Errors are collapsed to `Except Unit` exactly as the program collapses
  every error to `Result<_, ()>` after logging it.
-/

/-- Model of Rust `f64`: an exact rational, or an IEEE special value. -/
inductive F where
  | nan : F
  | inf : F
  | neginf : F
  | fin : ℚ → F
deriving DecidableEq

/-- IEEE division on `F` (used for `value / 100.0` and `value / max`).
Signed zeros are collapsed: finite / ±∞ is 0 and x / 0 carries the sign
of x, with 0 / 0 = NaN. -/
def F.div : F → F → F
  | nan, _ => nan
  | _, nan => nan
  | inf, inf => nan
  | inf, neginf => nan
  | neginf, inf => nan
  | neginf, neginf => nan
  | inf, fin b => if b < 0 then neginf else inf
  | neginf, fin b => if b < 0 then inf else neginf
  | fin _, inf => fin 0
  | fin _, neginf => fin 0
  | fin a, fin b =>
    if b = 0 then (if a = 0 then nan else if a < 0 then neginf else inf)
    else fin (a / b)

/-- IEEE multiplication on `F` (used for `... * self.max as f64` and
`... * 100.0`).  ±∞ times 0 is NaN. -/
def F.mul : F → F → F
  | nan, _ => nan
  | _, nan => nan
  | inf, inf => inf
  | inf, neginf => neginf
  | neginf, inf => neginf
  | neginf, neginf => inf
  | inf, fin b => if b = 0 then nan else if b < 0 then neginf else inf
  | fin a, inf => if a = 0 then nan else if a < 0 then neginf else inf
  | neginf, fin b => if b = 0 then nan else if b < 0 then inf else neginf
  | fin a, neginf => if a = 0 then nan else if a < 0 then inf else neginf
  | fin a, fin b => fin (a * b)

/-- Round half away from zero on the rationals: the semantics of Rust
`f64::round` on finite values. -/
def roundAway (q : ℚ) : ℤ :=
  if 0 ≤ q then ⌊q + 1/2⌋ else -⌊-q + 1/2⌋

/-- Model of Rust `f64::round`: round half away from zero; NaN and the
infinities are returned unchanged. -/
def F.round : F → F
  | nan => nan
  | inf => inf
  | neginf => neginf
  | fin q => fin ((roundAway q : ℤ) : ℚ)

/-- Model of the Rust saturating cast `as u64`: NaN and everything below 0
become 0, everything at or above `u64::MAX` becomes `u64::MAX = 2^64 - 1`,
finite values in range are truncated towards zero. -/
def F.toU64 : F → Nat
  | nan => 0
  | neginf => 0
  | inf => 2 ^ 64 - 1
  | fin q => if q < 0 then 0 else min (Int.toNat ⌊q⌋) (2 ^ 64 - 1)

/-- Model of the Rust cast `as f64` from `u64` (exact; the precision loss
of `f64` above 2^53 is not modelled). -/
def F.ofNat (n : Nat) : F := F.fin (n : ℚ)

/-- An open file handle: contents, cursor position, and whether writes on
this handle fail with an I/O error. -/
structure File where
  contents : List Char
  pos : Nat
  failWrites : Bool
deriving DecidableEq

/-- Model of `std::io::Write::write_all` on a `File`: a single whole write
at the current cursor position, overwriting the bytes there and advancing
the cursor; on a failing device the handle is unchanged and `Err(())` is
returned. -/
def File.write_all (f : File) (s : List Char) : File × Except Unit Unit :=
  if f.failWrites then
    (f, Except.error ())
  else
    ({ f with
        contents := f.contents.take f.pos ++ s ++ f.contents.drop (f.pos + s.length),
        pos := f.pos + s.length },
     Except.ok ())

/-- ASCII whitespace, modelling `str::trim`'s whitespace set on the ASCII
inputs of interest. -/
def isSpaceChar (c : Char) : Bool :=
  c = ' ' || c = '\t' || c = '\n' || c = '\r'

/-- Model of `str::trim`: drop leading and trailing whitespace. -/
def trimChars (l : List Char) : List Char :=
  ((l.dropWhile isSpaceChar).reverse.dropWhile isSpaceChar).reverse

/-- Digit string to number, most significant first. -/
def digitsToNat (l : List Char) : Nat :=
  l.foldl (fun acc c => acc * 10 + (c.toNat - 48)) 0

/-- Model of `str::parse::<u64>`: an optional leading `+`, then a nonempty
string of ASCII digits whose value fits in `u64`. -/
def parseU64 (l : List Char) : Option Nat :=
  let l2 := match l with
    | '+' :: rest => rest
    | _ => l
  if l2 = [] then none
  else if l2.all (fun c => c.isDigit) then
    (if digitsToNat l2 < 2 ^ 64 then some (digitsToNat l2) else none)
  else none

/-- Model of `read_u64` (src/main.rs:217): `read_to_end` from the current
cursor (leaving the cursor at end of file), decode as UTF-8 (always
succeeds on `List Char` contents), trim, parse as `u64`. -/
def read_u64 (f : File) : Option Nat × File :=
  let buffer := f.contents.drop f.pos
  (parseU64 (trimChars buffer), { f with pos := f.contents.length })

/-- Model of `open_u64` (src/main.rs:211): open the file read-only (fails
if it cannot be opened) and `read_u64` it from the start. -/
def open_u64 (mf : Option (List Char)) : Option Nat :=
  match mf with
  | none => none
  | some contents =>
    (read_u64 { contents := contents, pos := 0, failWrites := false }).1

/-- A backlight device directory as the Controller sees it: the contents of
its `brightness` and `max_brightness` pseudo-files (`none` when the file
cannot be opened) and whether writes to the brightness handle fail. -/
structure Device where
  name : String
  brightness : Option (List Char)
  max_brightness : Option (List Char)
  failWrites : Bool
deriving DecidableEq

/-- The `Controller` struct (src/main.rs:135): `max`, cached `value`, the
open read-write handle to `brightness`, and its path. -/
structure Controller where
  max : Nat
  value : Nat
  file : File
  path : String
deriving DecidableEq

/-- Model of `Controller::open` (src/main.rs:144): open `brightness` for
read+write (no create), `read_u64` it to get `value`, `open_u64` the
`max_brightness` file to get `max`, and build the Controller.  (Named
`openDev` because `open` is a Lean keyword.) -/
def Controller.openDev (d : Device) : Except Unit Controller :=
  match d.brightness with
  | none => Except.error ()
  | some contents =>
    let r := read_u64 { contents := contents, pos := 0, failWrites := d.failWrites }
    match r.1 with
    | none => Except.error ()
    | some value =>
      match open_u64 d.max_brightness with
      | none => Except.error ()
      | some max =>
        Except.ok { max := max, value := value, file := r.2, path := d.name ++ "/brightness" }

/-- A directory entry of the backlight root: whether the entry itself can
be read during iteration, and the device it points at. -/
structure DirEntry where
  readable : Bool
  device : Device
deriving DecidableEq

/-- Model of `Controller::list` (src/main.rs:183): fails iff the root
directory cannot be opened (`none`); otherwise yields, in order, the
devices of the entries that can be read, silently skipping the others
(`filter_map` over `entry.ok()`). -/
def Controller.list (root : Option (List DirEntry)) : Except Unit (List Device) :=
  match root with
  | none => Except.error ()
  | some entries =>
    Except.ok (entries.filterMap fun e => if e.readable then some e.device else none)

/-- The `for` loop of `Controller::open_first`: try each listed device in
order, return the first success, error out when the list is exhausted. -/
def open_firstAux : List Device → Except Unit Controller
  | [] => Except.error ()
  | d :: rest =>
    match Controller.openDev d with
    | Except.ok c => Except.ok c
    | Except.error _ => open_firstAux rest

/-- Model of `Controller::open_first` (src/main.rs:171). -/
def Controller.open_first (root : Option (List DirEntry)) : Except Unit Controller :=
  match Controller.list root with
  | Except.error _ => Except.error ()
  | Except.ok devs => open_firstAux devs

/-- Model of `Controller::set_percentage` (src/main.rs:195):
`raw = (value / 100.0 * max as f64).round() as u64`, clamp to `[0, max]`
(`clamp(0, max)` on `u64` is `min`), store it in the cached `value`, then
`write_all` its decimal representation to the open handle.  Returns the
updated Controller together with the `Result`. -/
def Controller.set_percentage (c : Controller) (value : F) : Controller × Except Unit Unit :=
  let raw := F.toU64 (F.round (F.mul (F.div value (F.fin 100)) (F.ofNat c.max)))
  let raw2 := min raw c.max
  let wr := File.write_all c.file (Nat.repr raw2).data
  ({ c with value := raw2, file := wr.1 }, wr.2)

/-- Model of `Controller::get_percentage` (src/main.rs:206):
`value as f64 / max as f64 * 100.0` from the cached fields only. -/
def Controller.get_percentage (c : Controller) : F :=
  F.mul (F.div (F.ofNat c.value) (F.ofNat c.max)) (F.ofNat 100)

/-- The clamp of the specification: `clamp(r, 0, max)` on integers. -/
def clampInt (z lo hi : ℤ) : ℤ := max lo (min z hi)

/-- The raw value the specification prescribes for `set_percentage`:
`clamp(round(target / 100.0 * max), 0, max)` with round half away from
zero (written from the spec, for comparison with the code's result). -/
def specRaw (target : ℚ) (maxRaw : Nat) : Nat :=
  (clampInt (roundAway (target / 100 * maxRaw)) 0 maxRaw).toNat

/-- The percentage the specification prescribes for `get_percentage`:
`value / max * 100` (written from the spec, for comparison). -/
def specPercentage (value maxRaw : Nat) : ℚ := (value : ℚ) / maxRaw * 100

/-- `Except` success test. -/
def exceptOk {ε α : Type} : Except ε α → Bool
  | Except.ok _ => true
  | Except.error _ => false

/-- The cached `(value, max)` pair of a successfully opened controller. -/
def openedPair (d : Device) : Option (Nat × Nat) :=
  match Controller.openDev d with
  | Except.ok c => some (c.value, c.max)
  | Except.error _ => none

/-- Open a device, call `set_percentage`, and observe the resulting file
contents together with the cursor position the write started at. -/
def setContentsAfterOpen (d : Device) (t : F) : Option (List Char × Nat) :=
  match Controller.openDev d with
  | Except.ok c => some ((c.set_percentage t).1.file.contents, c.file.pos)
  | Except.error _ => none

deriving instance DecidableEq for Except

/-- A device whose `brightness` file reads `300` while `max_brightness`
reads `255`: the parsed value exceeds the parsed maximum. -/
def devOverBright : Device :=
  { name := "card0", brightness := some "300".data,
    max_brightness := some "255".data, failWrites := false }

/-- A device whose `max_brightness` file reads `0`. -/
def devMaxZero : Device :=
  { name := "card0", brightness := some "50".data,
    max_brightness := some "0".data, failWrites := false }

/-- A healthy device: `brightness` reads `100` (newline-terminated, as
sysfs files are), `max_brightness` reads `255`. -/
def devNewline : Device :=
  { name := "card0", brightness := some "100\n".data,
    max_brightness := some "255".data, failWrites := false }

/-- A healthy device used for `open_first` scenarios. -/
def devGood : Device :=
  { name := "good", brightness := some "128\n".data,
    max_brightness := some "255".data, failWrites := false }

/-- A device whose `brightness` file cannot be opened, so `open` fails. -/
def devBroken : Device :=
  { name := "broken", brightness := none,
    max_brightness := some "255".data, failWrites := false }

/-- A readable directory entry for `devGood`. -/
def entryGood : DirEntry := { readable := true, device := devGood }

/-- A readable directory entry for `devBroken`. -/
def entryBroken : DirEntry := { readable := true, device := devBroken }

/-- A directory entry that itself cannot be read during iteration. -/
def entryUnreadable : DirEntry := { readable := false, device := devGood }

/-- A concrete controller as produced by opening `devGood`. -/
def ctrlA : Controller :=
  { max := 255, value := 128,
    file := { contents := "128\n".data, pos := 4, failWrites := false },
    path := "card0/brightness" }

/-- A concrete controller whose device rejects writes. -/
def ctrlFailing : Controller :=
  { max := 255, value := 128,
    file := { contents := "128\n".data, pos := 4, failWrites := true },
    path := "card0/brightness" }

lemma F.div_fin_fin {a b : ℚ} (hb : b ≠ 0) :
    F.div (F.fin a) (F.fin b) = F.fin (a / b) := by
  simp [F.div, hb]

lemma F.mul_fin_fin (a b : ℚ) : F.mul (F.fin a) (F.fin b) = F.fin (a * b) := rfl

lemma F.toU64_intCast (z : ℤ) :
    F.toU64 (F.fin (z : ℚ)) = min z.toNat (2 ^ 64 - 1) := by
  simp only [F.toU64, Int.floor_intCast]
  split_ifs with h
  · have hz : z < 0 := by exact_mod_cast h
    omega
  · rfl

lemma roundAway_nonpos {q : ℚ} (h : q ≤ 0) : roundAway q ≤ 0 := by
  rw [roundAway]
  split_ifs with h0
  · have : q = 0 := le_antisymm h h0
    subst this
    norm_num
  · refine neg_nonpos.mpr (Int.floor_nonneg.mpr ?_)
    linarith

lemma set_percentage_value_fin (c : Controller) (q : ℚ) :
    (c.set_percentage (F.fin q)).1.value
      = min (min (roundAway (q / 100 * (c.max : ℚ))).toNat (2 ^ 64 - 1)) c.max := by
  have h100 : (100 : ℚ) ≠ 0 := by norm_num
  simp [Controller.set_percentage, F.ofNat, F.div_fin_fin h100, F.mul_fin_fin,
    F.round, F.toU64_intCast]

lemma set_percentage_max_eq (c : Controller) (t : F) :
    (c.set_percentage t).1.max = c.max := rfl

lemma set_percentage_path_eq (c : Controller) (t : F) :
    (c.set_percentage t).1.path = c.path := rfl

lemma set_percentage_value_le (c : Controller) (t : F) :
    (c.set_percentage t).1.value ≤ c.max :=
  Nat.min_le_right _ _

lemma get_percentage_eq (c : Controller) (h : c.max ≠ 0) :
    c.get_percentage = F.fin ((c.value : ℚ) / (c.max : ℚ) * 100) := by
  have hc : ((c.max : ℚ)) ≠ 0 := Nat.cast_ne_zero.mpr h
  simp [Controller.get_percentage, F.ofNat, F.div_fin_fin hc, F.mul_fin_fin]

lemma roundAway_150_255 : roundAway ((150 : ℚ) / 100 * ((255 : Nat) : ℚ)) = 383 := by
  rw [show ((150 : ℚ) / 100 * ((255 : Nat) : ℚ)) = 765 / 2 by norm_num]
  rw [roundAway]
  norm_num

/-- C1: for every controller with `max ≥ 1` (and `max` in `u64` range, as
every parsed `max` is) and every finite requested percentage `q`,
`set_percentage` caches exactly `clamp(round(q / 100 * max), 0, max)` with
round half away from zero; in particular `set_percentage 150` with
`max = 255` caches `255` and a subsequent `get_percentage` returns `100`,
and `set_percentage (-10)` caches `0` with `get_percentage` returning `0`. -/
theorem set_percentage_matches_spec (c : Controller) (q : ℚ)
    (h1 : 1 ≤ c.max) (h2 : c.max < 2 ^ 64) :
    (c.set_percentage (F.fin q)).1.value = specRaw q c.max
    ∧ (c.max = 255 →
        (c.set_percentage (F.fin 150)).1.value = 255
        ∧ (c.set_percentage (F.fin 150)).1.get_percentage = F.fin 100)
    ∧ (c.set_percentage (F.fin (-10))).1.value = 0
    ∧ (c.set_percentage (F.fin (-10))).1.get_percentage = F.fin 0 := by
  have hv10 : (c.set_percentage (F.fin (-10))).1.value = 0 := by
    rw [set_percentage_value_fin]
    have hz : roundAway ((-10 : ℚ) / 100 * (c.max : ℚ)) ≤ 0 := by
      apply roundAway_nonpos
      have : (0 : ℚ) ≤ (c.max : ℚ) := Nat.cast_nonneg _
      nlinarith
    omega
  refine ⟨?_, ?_, hv10, ?_⟩
  · rw [set_percentage_value_fin, specRaw, clampInt]
    omega
  · intro h255
    have hval : (c.set_percentage (F.fin 150)).1.value = 255 := by
      rw [set_percentage_value_fin, h255, roundAway_150_255]
      omega
    refine ⟨hval, ?_⟩
    rw [get_percentage_eq _ (by rw [set_percentage_max_eq, h255]; omega)]
    rw [hval, set_percentage_max_eq, h255]
    norm_num
  · rw [get_percentage_eq _ (by rw [set_percentage_max_eq]; omega)]
    rw [hv10, set_percentage_max_eq]
    norm_num

/-- C1 witness: the theorem applied to a concrete controller with
`max = 255` and target `150`. -/
theorem set_percentage_matches_spec_witness :
    1 ≤ ctrlA.max ∧ ctrlA.max < 2 ^ 64
    ∧ ((ctrlA.set_percentage (F.fin 150)).1.value = specRaw 150 ctrlA.max
      ∧ (ctrlA.max = 255 →
          (ctrlA.set_percentage (F.fin 150)).1.value = 255
          ∧ (ctrlA.set_percentage (F.fin 150)).1.get_percentage = F.fin 100)
      ∧ (ctrlA.set_percentage (F.fin (-10))).1.value = 0
      ∧ (ctrlA.set_percentage (F.fin (-10))).1.get_percentage = F.fin 0) :=
  ⟨by decide, by decide, set_percentage_matches_spec ctrlA 150 (by decide) (by decide)⟩

/-- C2 (amended): `0 ≤ value` always holds and every `set_percentage`
call, successful or failed, leaves `value ≤ max`; `open` however performs
no such clamping (see the counterexample). -/
theorem value_le_max_after_set_percentage (c : Controller) (t : F) :
    0 ≤ (c.set_percentage t).1.value ∧ (c.set_percentage t).1.value ≤ c.max :=
  ⟨Nat.zero_le _, set_percentage_value_le c t⟩

/-- C2 counterexample: opening a device whose `brightness` file reads
`300` while `max_brightness` reads `255` succeeds and yields a controller
with cached `value = 300 > max = 255`: `open` does not establish
`value ≤ max`. -/
theorem open_value_can_exceed_max_cex :
    openedPair devOverBright = some (300, 255) ∧ ¬ (300 ≤ 255) := by decide

/-- C10: `set_percentage` never changes the `max` and `path` fields,
whether the write succeeds or fails. -/
theorem set_percentage_frame (c : Controller) (t : F) :
    (c.set_percentage t).1.max = c.max ∧ (c.set_percentage t).1.path = c.path :=
  ⟨set_percentage_max_eq c t, set_percentage_path_eq c t⟩

/-- C9: `set_percentage` is total over every `f64` input including NaN and
the infinities: the cached value always lands in `[0, max]`, the
float-to-`u64` conversion saturates (NaN, -∞ and all negative values to
`0`; +∞ to `u64::MAX = 2^64 - 1`), a NaN target caches `0`, and a +∞
target on a well-formed controller caches `max`. -/
theorem set_percentage_total_saturating (c : Controller) (t : F) :
    (c.set_percentage t).1.value ≤ c.max
    ∧ F.toU64 F.nan = 0
    ∧ F.toU64 F.neginf = 0
    ∧ F.toU64 F.inf = 2 ^ 64 - 1
    ∧ (∀ q : ℚ, q < 0 → F.toU64 (F.fin q) = 0)
    ∧ (c.set_percentage F.nan).1.value = 0
    ∧ (1 ≤ c.max → c.max < 2 ^ 64 → (c.set_percentage F.inf).1.value = c.max) := by
  refine ⟨set_percentage_value_le c t, rfl, rfl, rfl, ?_, ?_, ?_⟩
  · intro q hq
    simp [F.toU64, hq]
  · simp [Controller.set_percentage, F.div, F.mul, F.round, F.toU64]
  · intro h1 h2
    have hne : ((c.max : ℚ)) ≠ 0 := Nat.cast_ne_zero.mpr (by omega)
    have hnlt : ¬ ((c.max : ℚ) < 0) := by
      simp [Nat.cast_nonneg]
    norm_num [Controller.set_percentage, F.div, F.mul, F.round, F.toU64, F.ofNat, hne, hnlt]
    omega

/-- C9 witness: the theorem applied to a concrete controller and a NaN
target. -/
theorem set_percentage_total_saturating_witness :
    (ctrlA.set_percentage F.nan).1.value ≤ ctrlA.max
    ∧ F.toU64 F.nan = 0
    ∧ F.toU64 F.neginf = 0
    ∧ F.toU64 F.inf = 2 ^ 64 - 1
    ∧ (∀ q : ℚ, q < 0 → F.toU64 (F.fin q) = 0)
    ∧ (ctrlA.set_percentage F.nan).1.value = 0
    ∧ (1 ≤ ctrlA.max → ctrlA.max < 2 ^ 64 → (ctrlA.set_percentage F.inf).1.value = ctrlA.max) :=
  set_percentage_total_saturating ctrlA F.nan

/-- C4: the cached `value` is updated to the clamped raw integer before
the write is attempted: on a controller whose device rejects writes,
`set_percentage` returns an error, yet the cached `value` holds the
clamped raw integer and a subsequent `get_percentage` reports the intended
clamped percentage. -/
theorem value_updated_before_write (c : Controller) (t : F)
    (hfail : c.file.failWrites = true) (hmax : 1 ≤ c.max) :
    (c.set_percentage t).2 = Except.error ()
    ∧ (c.set_percentage t).1.value
        = min (F.toU64 (F.round (F.mul (F.div t (F.fin 100)) (F.ofNat c.max)))) c.max
    ∧ (c.set_percentage t).1.get_percentage
        = F.fin (specPercentage ((c.set_percentage t).1.value) c.max) := by
  refine ⟨?_, rfl, ?_⟩
  · simp [Controller.set_percentage, File.write_all, hfail]
  · rw [get_percentage_eq _ (by rw [set_percentage_max_eq]; omega)]
    rw [set_percentage_max_eq, specPercentage]

/-- C4 witness: the theorem applied to a concrete controller whose device
rejects writes, at target `50`. -/
theorem value_updated_before_write_witness :
    ctrlFailing.file.failWrites = true ∧ 1 ≤ ctrlFailing.max
    ∧ ((ctrlFailing.set_percentage (F.fin 50)).2 = Except.error ()
      ∧ (ctrlFailing.set_percentage (F.fin 50)).1.value
          = min (F.toU64 (F.round (F.mul (F.div (F.fin 50) (F.fin 100)) (F.ofNat ctrlFailing.max)))) ctrlFailing.max
      ∧ (ctrlFailing.set_percentage (F.fin 50)).1.get_percentage
          = F.fin (specPercentage ((ctrlFailing.set_percentage (F.fin 50)).1.value) ctrlFailing.max)) :=
  ⟨by decide, by decide, value_updated_before_write ctrlFailing (F.fin 50) (by decide) (by decide)⟩

/-- C8: `get_percentage` returns exactly `value / max * 100` computed from
the cached fields, and its result does not depend on the file handle or
path at all (no filesystem read); being a pure function of the controller,
it does not modify it and consecutive calls agree. -/
theorem get_percentage_from_cache (m v : Nat) (f g : File) (p r : String)
    (h : 1 ≤ m) :
    Controller.get_percentage { max := m, value := v, file := f, path := p }
      = F.fin (specPercentage v m)
    ∧ Controller.get_percentage { max := m, value := v, file := f, path := p }
      = Controller.get_percentage { max := m, value := v, file := g, path := r } :=
  ⟨by
    rw [get_percentage_eq _ (show m ≠ 0 by omega)]
    rfl, rfl⟩

/-- C8 witness: the theorem applied at `value = 128`, `max = 255` and two
different file states. -/
theorem get_percentage_from_cache_witness :
    1 ≤ 255
    ∧ (Controller.get_percentage { max := 255, value := 128, file := { contents := [], pos := 0, failWrites := false }, path := "a" }
        = F.fin (specPercentage 128 255)
      ∧ Controller.get_percentage { max := 255, value := 128, file := { contents := [], pos := 0, failWrites := false }, path := "a" }
        = Controller.get_percentage { max := 255, value := 128, file := { contents := "x".data, pos := 1, failWrites := true }, path := "b" }) :=
  ⟨by decide,
    get_percentage_from_cache 255 128
      { contents := [], pos := 0, failWrites := false }
      { contents := "x".data, pos := 1, failWrites := true } "a" "b" (by decide)⟩

/-- C3 (amended): `open` performs no `max ≥ 1` check: whenever the
`brightness` file parses to some value and `max_brightness` parses to `0`,
`open` succeeds and returns a Controller with `max = 0`. -/
theorem open_with_zero_max_succeeds (d : Device) (bc mc : List Char) (v : Nat)
    (hb : d.brightness = some bc)
    (hm : d.max_brightness = some mc)
    (hv : parseU64 (trimChars bc) = some v)
    (h0 : parseU64 (trimChars mc) = some 0) :
    Controller.openDev d
      = Except.ok { max := 0, value := v,
                    file := { contents := bc, pos := bc.length, failWrites := d.failWrites },
                    path := d.name ++ "/brightness" } := by
  unfold Controller.openDev
  rw [hb]
  simp only [read_u64, List.drop_zero, open_u64, hm, hv, h0]

/-- C3 counterexample: a device whose `max_brightness` file reads `0`
opens successfully, contradicting the claim that it must fail to open. -/
theorem open_succeeds_despite_zero_max_cex :
    parseU64 (trimChars "0".data) = some 0
    ∧ exceptOk (Controller.openDev devMaxZero) = true
    ∧ openedPair devMaxZero = some (50, 0) := by decide

/-- C3 witness: the amended theorem applied to the concrete device whose
`max_brightness` reads `0`. -/
theorem open_with_zero_max_succeeds_witness :
    devMaxZero.brightness = some "50".data
    ∧ devMaxZero.max_brightness = some "0".data
    ∧ parseU64 (trimChars "50".data) = some 50
    ∧ parseU64 (trimChars "0".data) = some 0
    ∧ Controller.openDev devMaxZero
        = Except.ok { max := 0, value := 50,
                      file := { contents := "50".data, pos := ("50".data).length,
                                failWrites := devMaxZero.failWrites },
                      path := devMaxZero.name ++ "/brightness" } :=
  ⟨rfl, rfl, by decide, by decide,
    open_with_zero_max_succeeds devMaxZero "50".data "0".data 50 rfl rfl (by decide) (by decide)⟩

/-- C5 counterexample: opening a device whose `brightness` reads
`"100\n"` leaves the cursor at offset 4, and `set_percentage 60` then
writes `"153"` there, producing contents `"100\n153"`: the previously read
bytes remain as a prefix, so the write does not start at offset zero. -/
theorem write_not_at_offset_zero_cex :
    setContentsAfterOpen devNewline (F.fin 60) = some ("100\n153".data, 4)
    ∧ ("100\n153".data).take 4 = "100\n".data
    ∧ (4 : Nat) ≠ 0 := by
  refine ⟨?_, by decide, by decide⟩
  have h1 : Controller.openDev devNewline =
      Except.ok { max := 255, value := 100,
                  file := { contents := "100\n".data, pos := 4, failWrites := false },
                  path := "card0/brightness" } := by decide
  have hraw : F.toU64 (F.round (F.mul (F.div (F.fin 60) (F.fin 100)) (F.ofNat 255))) = 153 := by
    simp [F.div, F.mul, F.ofNat, F.round, F.toU64]
    norm_num [roundAway]
    decide
  simp only [setContentsAfterOpen, h1]
  simp only [Controller.set_percentage, hraw]
  decide

/-- C5 (amended): every successful `set_percentage` performs one whole
write of exactly the decimal ASCII representation of the clamped raw
integer, with no trailing newline — but at the handle's current cursor
position, which right after `open` equals the length of the previously
read contents (the code never seeks back to zero), so the bytes land after
the previously read contents, not at offset zero. -/
theorem write_bytes_decimal_at_cursor (c : Controller) (t : F) (d : Device)
    (hok : c.file.failWrites = false) :
    (c.set_percentage t).2 = Except.ok ()
    ∧ (c.set_percentage t).1.file.contents
        = c.file.contents.take c.file.pos
          ++ (Nat.repr ((c.set_percentage t).1.value)).data
          ++ c.file.contents.drop (c.file.pos + ((Nat.repr ((c.set_percentage t).1.value)).data).length)
    ∧ (c.set_percentage t).1.file.pos
        = c.file.pos + ((Nat.repr ((c.set_percentage t).1.value)).data).length
    ∧ (Controller.openDev d = Except.ok c → c.file.pos = c.file.contents.length) := by
  obtain ⟨m, v, f, p⟩ := c
  obtain ⟨ct, ps, fw⟩ := f
  simp only at hok
  subst hok
  refine ⟨rfl, rfl, rfl, ?_⟩
  intro h
  unfold Controller.openDev at h
  cases hb : Device.brightness d with
  | none => rw [hb] at h; exact absurd h (by simp)
  | some contents =>
    rw [hb] at h
    simp only [read_u64, List.drop_zero] at h
    cases hv : parseU64 (trimChars contents) with
    | none => rw [hv] at h; exact absurd h (by simp)
    | some v2 =>
      rw [hv] at h
      cases hm : open_u64 d.max_brightness with
      | none => rw [hm] at h; exact absurd h (by simp)
      | some mx =>
        rw [hm] at h
        simp only [Except.ok.injEq, Controller.mk.injEq, File.mk.injEq] at h
        obtain ⟨hmx, hv2, ⟨hct, hps, hfw⟩, hpath⟩ := h
        subst hct
        exact hps.symm

/-- C5 witness: the amended theorem applied to a concrete controller with
a working device. -/
theorem write_bytes_decimal_at_cursor_witness :
    ctrlA.file.failWrites = false
    ∧ ((ctrlA.set_percentage (F.fin 0)).2 = Except.ok ()
      ∧ (ctrlA.set_percentage (F.fin 0)).1.file.contents
          = ctrlA.file.contents.take ctrlA.file.pos
            ++ (Nat.repr ((ctrlA.set_percentage (F.fin 0)).1.value)).data
            ++ ctrlA.file.contents.drop
                (ctrlA.file.pos + ((Nat.repr ((ctrlA.set_percentage (F.fin 0)).1.value)).data).length)
      ∧ (ctrlA.set_percentage (F.fin 0)).1.file.pos
          = ctrlA.file.pos + ((Nat.repr ((ctrlA.set_percentage (F.fin 0)).1.value)).data).length
      ∧ (Controller.openDev devGood = Except.ok ctrlA →
          ctrlA.file.pos = ctrlA.file.contents.length)) :=
  ⟨rfl, write_bytes_decimal_at_cursor ctrlA (F.fin 0) devGood rfl⟩

lemma open_firstAux_all_fail {l : List Device}
    (h : ∀ d ∈ l, exceptOk (Controller.openDev d) = false) :
    open_firstAux l = Except.error () := by
  induction l with
  | nil => rfl
  | cons d rest ih =>
    have hd := h d (List.mem_cons_self d rest)
    rw [open_firstAux]
    cases hod : Controller.openDev d with
    | error e => exact ih fun x hx => h x (List.mem_cons_of_mem _ hx)
    | ok c => rw [hod] at hd; simp [exceptOk] at hd

lemma open_firstAux_first {pre : List Device} {d : Device} {post : List Device}
    (hpre : ∀ x ∈ pre, exceptOk (Controller.openDev x) = false)
    (hd : exceptOk (Controller.openDev d) = true) :
    open_firstAux (pre ++ d :: post) = Controller.openDev d := by
  induction pre with
  | nil =>
    simp only [List.nil_append]
    rw [open_firstAux]
    cases hod : Controller.openDev d with
    | error e => rw [hod] at hd; simp [exceptOk] at hd
    | ok c => rfl
  | cons p rest ih =>
    have hp := hpre p (List.mem_cons_self p rest)
    simp only [List.cons_append]
    rw [open_firstAux]
    cases hop : Controller.openDev p with
    | error e => exact ih fun x hx => hpre x (List.mem_cons_of_mem _ hx)
    | ok c => rw [hop] at hp; simp [exceptOk] at hp

/-- C6: `open_first` tries the enumerated devices in yielded order and
returns the first whose `open` succeeds, continuing past failures; it
fails when the root cannot be opened, and when every candidate fails —
including the empty listing, covered by the all-fail case with an empty
device list. -/
theorem open_first_returns_first_success (entries : List DirEntry) (devs : List Device)
    (hl : Controller.list (some entries) = Except.ok devs) :
    Controller.open_first none = Except.error ()
    ∧ ((∀ d ∈ devs, exceptOk (Controller.openDev d) = false) →
        Controller.open_first (some entries) = Except.error ())
    ∧ (∀ pre d post, devs = pre ++ d :: post →
        (∀ x ∈ pre, exceptOk (Controller.openDev x) = false) →
        exceptOk (Controller.openDev d) = true →
        Controller.open_first (some entries) = Controller.openDev d) := by
  have hof : Controller.open_first (some entries) = open_firstAux devs := by
    simp only [Controller.open_first, hl]
  refine ⟨rfl, ?_, ?_⟩
  · intro hall
    rw [hof]
    exact open_firstAux_all_fail hall
  · intro pre d post hsplit hpre hd
    rw [hof, hsplit]
    exact open_firstAux_first hpre hd

/-- C6 witness: the theorem applied to a root holding one broken and one
openable device, in that order. -/
theorem open_first_returns_first_success_witness :
    Controller.list (some [entryBroken, entryGood]) = Except.ok [devBroken, devGood]
    ∧ (Controller.open_first none = Except.error ()
      ∧ ((∀ d ∈ [devBroken, devGood], exceptOk (Controller.openDev d) = false) →
          Controller.open_first (some [entryBroken, entryGood]) = Except.error ())
      ∧ (∀ pre d post, [devBroken, devGood] = pre ++ d :: post →
          (∀ x ∈ pre, exceptOk (Controller.openDev x) = false) →
          exceptOk (Controller.openDev d) = true →
          Controller.open_first (some [entryBroken, entryGood]) = Controller.openDev d)) :=
  ⟨by decide,
    open_first_returns_first_success [entryBroken, entryGood] [devBroken, devGood] (by decide)⟩

/-- C7: `list` fails as a whole exactly when the root directory cannot be
opened; an unreadable individual entry is skipped and the listing equals
the listing without that entry, so the remaining entries are still
yielded. -/
theorem list_skips_unreadable_entries (pre post : List DirEntry) (e : DirEntry)
    (he : e.readable = false) :
    Controller.list none = Except.error ()
    ∧ (∀ entries, exceptOk (Controller.list (some entries)) = true)
    ∧ Controller.list (some (pre ++ e :: post)) = Controller.list (some (pre ++ post)) := by
  refine ⟨rfl, fun entries => rfl, ?_⟩
  simp [Controller.list, List.filterMap_append, List.filterMap_cons, he]

/-- C7 witness: the theorem applied to a listing with an unreadable entry
between two readable ones. -/
theorem list_skips_unreadable_entries_witness :
    entryUnreadable.readable = false
    ∧ (Controller.list none = Except.error ()
      ∧ (∀ entries, exceptOk (Controller.list (some entries)) = true)
      ∧ Controller.list (some ([entryGood] ++ entryUnreadable :: [entryBroken]))
          = Controller.list (some ([entryGood] ++ [entryBroken]))) :=
  ⟨rfl, list_skips_unreadable_entries [entryGood] [entryBroken] entryUnreadable rfl⟩
